import Mathlib

/-!
Verification development for the VOIKE `snrl-ai-edge` DNS edge resolver
(`services/snrl-ai-edge/app.py`): a TTL resolution cache, a vector-similarity
prediction layer, a backend fetch client, and a DNS protocol responder.

The Python source is shallowly embedded:

* Pure helpers (`vector_id`, `embed_domain`, domain normalization, TTL
  selection, payload annotation, TXT-value synthesis) become Lean functions.
  SHA-256 is implemented in full over byte lists so the embedding functions
  are evaluable on concrete domains.
* External effects (wall-clock reads, the qdrant similarity search, the
  backend HTTP POST, the qdrant upsert) are modelled by a `World` record of
  per-call oracle outcomes; exceptions raised by those effects are `Except`
  errors / flags in the `World`.
* Mutable state (`EdgeState.cache`, `EdgeState.stats`) is threaded
  explicitly: each operation returns the updated state.  Raising an
  exception in Python leaves earlier mutations in place, so fallible
  operations return the mutated state alongside the `Except` result.
* Floating-point times, TTLs and similarity scores are modelled as `ℚ`
  (the source only compares and adds them).
* JSON payload dicts are modelled by a `Payload` structure holding exactly
  the fields the edge code reads (`candidates[*].ip`, `ttl`, `signature`,
  `trustAnchor`, `meta.*`, `predicted`); a missing/null field is `none`.
  Python truthiness tests on strings (`x or y`) are modelled explicitly
  (empty string counts as missing).
* To express "the prediction store / backend was not consulted", the
  resolver additionally returns a trace of the external actions it
  attempted — the call-count instrumentation the spec itself suggests.
-/

/-! ### SHA-256 over byte lists (embeds `hashlib.sha256`)

Bytes are `Nat` values `< 256`; all word arithmetic is `Nat` reduced
modulo `2 ^ 32`.
-/

/-- Right-rotate a 32-bit word (`x < 2 ^ 32`) by `n` bits. -/
def rotr32 (n x : Nat) : Nat :=
  ((x >>> n) ||| (x <<< (32 - n))) % 2 ^ 32

/-- SHA-256 `Ch` function: `(e ∧ f) ⊕ (¬e ∧ g)` on 32-bit words. -/
def shaCh (e f g : Nat) : Nat :=
  (e &&& f) ^^^ ((e ^^^ (2 ^ 32 - 1)) &&& g)

/-- SHA-256 `Maj` function. -/
def shaMaj (a b c : Nat) : Nat :=
  (a &&& b) ^^^ (a &&& c) ^^^ (b &&& c)

/-- SHA-256 big Σ₀. -/
def sigma0 (a : Nat) : Nat := rotr32 2 a ^^^ rotr32 13 a ^^^ rotr32 22 a

/-- SHA-256 big Σ₁. -/
def sigma1 (e : Nat) : Nat := rotr32 6 e ^^^ rotr32 11 e ^^^ rotr32 25 e

/-- SHA-256 small σ₀. -/
def ssig0 (x : Nat) : Nat := rotr32 7 x ^^^ rotr32 18 x ^^^ (x >>> 3)

/-- SHA-256 small σ₁. -/
def ssig1 (x : Nat) : Nat := rotr32 17 x ^^^ rotr32 19 x ^^^ (x >>> 10)

/-- The 64 SHA-256 round constants. -/
def sha256K : List Nat :=
  [1116352408, 1899447441, 3049323471, 3921009573, 961987163,
   1508970993, 2453635748, 2870763221, 3624381080, 310598401,
   607225278, 1426881987, 1925078388, 2162078206, 2614888103,
   3248222580, 3835390401, 4022224774, 264347078, 604807628,
   770255983, 1249150122, 1555081692, 1996064986, 2554220882,
   2821834349, 2952996808, 3210313671, 3336571891, 3584528711,
   113926993, 338241895, 666307205, 773529912, 1294757372,
   1396182291, 1695183700, 1986661051, 2177026350, 2456956037,
   2730485921, 2820302411, 3259730800, 3345764771, 3516065817,
   3600352804, 4094571909, 275423344, 430227734, 506948616,
   659060556, 883997877, 958139571, 1322822218, 1537002063,
   1747873779, 1955562222, 2024104815, 2227730452, 2361852424,
   2428436474, 2756734187, 3204031479, 3329325298]

/-- The SHA-256 initial hash value. -/
def sha256H0 : List Nat :=
  [1779033703, 3144134277, 1013904242,
   2773480762, 1359893119, 2600822924,
   528734635, 1541459225]

/-- Big-endian byte serialization of `x` into `n` bytes. -/
def beBytes (n x : Nat) : List Nat :=
  (List.range n).map fun i => (x >>> (8 * (n - 1 - i))) % 256

/-- Big-endian value of a byte list. -/
def beToNat (bs : List Nat) : Nat :=
  bs.foldl (fun acc b => acc * 256 + b) 0

/-- SHA-256 message padding: append `0x80`, zero bytes up to 56 mod 64,
then the 64-bit big-endian bit length. -/
def padMessage (msg : List Nat) : List Nat :=
  let L := msg.length
  let zeros := (119 - L % 64) % 64
  msg ++ [0x80] ++ List.replicate zeros 0 ++ beBytes 8 (8 * L)

/-- One step of the 64-byte chunker: append the byte to the open chunk,
closing it when it reaches 64 bytes. -/
def chunkStep (acc : List (List Nat) × List Nat) (b : Nat) : List (List Nat) × List Nat :=
  if acc.2.length = 63 then (acc.1 ++ [acc.2 ++ [b]], [])
  else (acc.1, acc.2 ++ [b])

/-- Split a byte list into consecutive 64-byte chunks (the input length is
always a multiple of 64 after padding, so no partial chunk remains). -/
def chunk64 (l : List Nat) : List (List Nat) :=
  (l.foldl chunkStep ([], [])).1

/-- Parse a 64-byte block as sixteen big-endian 32-bit words. -/
def blockWords (block : List Nat) : List Nat :=
  (List.range 16).map fun i => beToNat ((block.drop (4 * i)).take 4)

/-- Extend sixteen message words to the 64-entry SHA-256 message schedule. -/
def msgSchedule (ws : List Nat) : List Nat :=
  (List.range 48).foldl
    (fun w _ =>
      let n := w.length
      let wi := (ssig1 (w.getD (n - 2) 0) + w.getD (n - 7) 0 +
                 ssig0 (w.getD (n - 15) 0) + w.getD (n - 16) 0) % 2 ^ 32
      w ++ [wi])
    ws

/-- One SHA-256 round on the eight-word working state. -/
def sha256Round (w : List Nat) (i : Nat) (s : List Nat) : List Nat :=
  match s with
  | [a, b, c, d, e, f, g, h] =>
    let t1 := (h + sigma1 e + shaCh e f g + sha256K.getD i 0 + w.getD i 0) % 2 ^ 32
    let t2 := (sigma0 a + shaMaj a b c) % 2 ^ 32
    [(t1 + t2) % 2 ^ 32, a, b, c, (d + t1) % 2 ^ 32, e, f, g]
  | s => s

/-- SHA-256 compression of one 64-byte block into the hash state. -/
def sha256Compress (h : List Nat) (block : List Nat) : List Nat :=
  let w := msgSchedule (blockWords block)
  let final := (List.range 64).foldl (fun s i => sha256Round w i s) h
  List.zipWith (fun x y => (x + y) % 2 ^ 32) h final

/-- SHA-256 digest (32 bytes) of a byte-list message. -/
def sha256 (msg : List Nat) : List Nat :=
  ((chunk64 (padMessage msg)).foldl sha256Compress sha256H0).flatMap (beBytes 4)

/-- UTF-8 encoding of one character (embeds Python `str.encode('utf-8')`
per code point). -/
def utf8Bytes (c : Char) : List Nat :=
  let n := c.toNat
  if n < 0x80 then [n]
  else if n < 0x800 then [0xC0 + n / 64, 0x80 + n % 64]
  else if n < 0x10000 then
    [0xE0 + n / 4096, 0x80 + (n / 64) % 64, 0x80 + n % 64]
  else
    [0xF0 + n / 262144, 0x80 + (n / 4096) % 64, 0x80 + (n / 64) % 64,
     0x80 + n % 64]

/-- UTF-8 bytes of a string. -/
def strBytes (s : String) : List Nat :=
  s.data.flatMap utf8Bytes

/-! ### Embedding layer (`vector_id`, `embed_domain`) -/

/-- Embeds `vector_id`: first 8 digest bytes as a big-endian integer. -/
def vector_id (domain : String) : Nat :=
  beToNat ((sha256 (strBytes domain)).take 8)

/-- Embeds `embed_domain`: component `idx` is
`(digest[idx % 32] + (idx * 17 % 255)) / 255.0`, as a rational. -/
def embed_domain (domain : String) (dims : Nat := 32) : List ℚ :=
  let digest := sha256 (strBytes domain)
  (List.range dims).map fun idx =>
    let base := digest.getD (idx % digest.length) 0
    ((base : ℚ) + ((idx * 17 % 255 : Nat) : ℚ)) / 255

/-! ### Data model

Only the payload fields the edge code actually reads are modelled
(`candidates[*].ip`, `ttl`, `signature`, `trustAnchor`, `meta.*`,
`predicted`); a JSON field that is missing or null is `none`.
-/

/-- One backend candidate; the DNS layer only reads `candidate.get('ip')`. -/
structure Candidate where
  ip : Option String := none
  deriving DecidableEq, Repr

/-- The payload's `meta` map, restricted to the keys the edge reads/writes. -/
structure MetaMap where
  signature : Option String := none
  trustAnchor : Option String := none
  edgeRegion : Option String := none
  cachedAt : Option String := none
  deriving DecidableEq, Repr

/-- A resolution payload (`ResolutionPayload`): the backend JSON dict as the
edge layer sees it.  `predicted := false` models the key being absent. -/
structure Payload where
  candidates : List Candidate := []
  ttl : Option Int := none
  signature : Option String := none
  trustAnchor : Option String := none
  meta : Option MetaMap := none
  predicted : Bool := false
  deriving DecidableEq, Repr

/-- A cache entry `{'payload': ..., 'expires_at': ...}`. -/
structure CacheRecord where
  payload : Payload
  expires_at : ℚ
  deriving DecidableEq, Repr

/-- The point payload stored in / read back from the vector index. -/
structure HitPayload where
  domain : String := ""
  payload : Option Payload := none
  expires_at : Option ℚ := none
  deriving DecidableEq, Repr

/-- A qdrant search hit: similarity score plus stored point payload. -/
structure Hit where
  score : ℚ
  payload : Option HitPayload := none
  deriving DecidableEq, Repr

/-- The `EdgeState.stats` counters. -/
structure Stats where
  cacheHits : Nat := 0
  predictedHits : Nat := 0
  backendFetches : Nat := 0
  errors : Nat := 0
  deriving DecidableEq, Repr

/-- The mutable resolver state: resolution cache (association list keyed by
normalized domain) and stats counters. -/
structure EdgeState where
  cache : List (String × CacheRecord) := []
  stats : Stats := {}
  deriving DecidableEq, Repr

/-- Runtime configuration (the fields the modelled operations consult). -/
structure Config where
  api_key : Option String := none
  region : String := "unknown"
  capabilities : List String := ["http"]
  cache_ttl : Int := 45
  semantic_threshold : ℚ := 72 / 100
  deriving DecidableEq, Repr

/-- Resolution errors: both `raise RuntimeError` sites in the source are the
spec's `BackendUnavailable`. -/
inductive EdgeError
  | backendUnavailable
  deriving DecidableEq, Repr

/-- Per-call outcomes of the external effects: the two `time.time()` reads,
the qdrant similarity search, the backend HTTP POST (`.error` models a
`requests.RequestException`, including non-success statuses via
`raise_for_status`), the `strftime` timestamp, and whether the qdrant
upsert succeeds. -/
structure World where
  now : ℚ
  searchResult : Except Unit (List Hit)
  backendResult : Except Unit Payload
  fetchNow : ℚ
  cachedAt : String
  upsertOk : Bool

/-- External actions attempted during a resolve call, in order — the
call-count instrumentation used to state "the prediction store / backend
was never consulted". -/
inductive EdgeAction
  | indexSearch
  | backendFetch
  | indexUpsert
  deriving DecidableEq, Repr

/-- Result of `resolve_domain`: the returned payload or raised error, the
updated state, and the trace of attempted external actions. -/
structure ResolveOutcome where
  result : Except EdgeError Payload
  state : EdgeState
  trace : List EdgeAction

/-! ### Pure helpers -/

/-- Embeds Python `s.rstrip('.')`: drop every trailing dot. -/
def rstrip_dots (s : String) : String :=
  String.mk (s.data.reverse.dropWhile (· == '.')).reverse

/-- Embeds `domain.rstrip('.').lower()` (line 82).  `Char.toLower` is the
ASCII case mapping, which is what Python's `str.lower` performs on ASCII
domain names. -/
def normalize_domain (domain : String) : String :=
  String.mk ((rstrip_dots domain).data.map Char.toLower)

/-- Python truthiness of an optional string: `None` and `''` are falsy. -/
def pyStr : Option String → Option String
  | some s => if s = "" then none else some s
  | none => none

/-- Embeds a Python `a or b or d` chain over optional strings. -/
def pyFirstStr (a b : Option String) (d : String) : String :=
  match pyStr a with
  | some s => s
  | none =>
    match pyStr b with
    | some s => s
    | none => d

/-- Embeds `int(payload.get('ttl') or dflt)` (lines 148 and 250): a missing,
null or zero `ttl` falls back to the configured default. -/
def effTtl (p : Payload) (dflt : Int) : Int :=
  match p.ttl with
  | some t => if t = 0 then dflt else t
  | none => dflt

/-- Embeds lines 150-152: `payload.setdefault('meta', {})` then set
`meta['edgeRegion']` and `meta['cachedAt']`. -/
def annotate_payload (p : Payload) (region cachedAt : String) : Payload :=
  let m := p.meta.getD {}
  { p with meta := some { m with edgeRegion := some region, cachedAt := some cachedAt } }

/-- Embeds `not self.config.api_key` (line 125): unset or empty key. -/
def apiKeyMissing (cfg : Config) : Bool :=
  match cfg.api_key with
  | none => true
  | some s => s == ""

/-- Embeds `self.cache.get(normalized)` on the association-list cache. -/
def cacheGet (cache : List (String × CacheRecord)) (k : String) : Option CacheRecord :=
  (cache.find? (fun e => e.1 == k)).map (·.2)

/-- Embeds `self.cache[normalized] = v` on the association-list cache. -/
def cacheSet (cache : List (String × CacheRecord)) (k : String) (v : CacheRecord) :
    List (String × CacheRecord) :=
  (k, v) :: cache.filter (fun e => !(e.1 == k))

/-! ### Resolution orchestrator (`EdgeState.resolve_domain` and friends) -/

/-- Embeds `_predict_from_semantics` (lines 101-122).  The qdrant search is
the `World` oracle; `domain` is the search key the oracle answers for.
Returns the accepted prediction record (if any) together with the number of
`errors` increments performed (1 when the search raised).  A raised search
yields `(none, 1)`; no hit, a null/missing stored payload, an expired
prediction, or a score below threshold yield `(none, 0)`; otherwise the
stored payload is copied, marked `predicted := true`, and returned with the
stored expiry. -/
def predict_from_semantics (cfg : Config) (w : World) (domain : String) (now : ℚ) :
    Option CacheRecord × Nat :=
  match w.searchResult with
  | .error _ => (none, 1)
  | .ok [] => (none, 0)
  | .ok (hit :: _) =>
    match hit.payload.bind (·.payload) with
    | none => (none, 0)
    | some p =>
      if (hit.payload.bind (·.expires_at)).getD 0 ≤ now ∨
          hit.score < cfg.semantic_threshold then
        (none, 0)
      else
        (some ⟨{ p with predicted := true }, (hit.payload.bind (·.expires_at)).getD 0⟩, 0)

/-- Embeds `_fetch_from_backend` (lines 124-153).  The HTTP POST outcome is
the `World` oracle (`.error` models a raised `requests.RequestException`,
including `raise_for_status` on non-success).  Returns the fetched cache
record or the raised error, together with the number of `errors` increments
performed: note the missing-API-key branch raises WITHOUT incrementing
`errors` (only the `except requests.RequestException` branch does). -/
def fetch_from_backend (cfg : Config) (w : World) (domain : String) :
    Except EdgeError CacheRecord × Nat :=
  if apiKeyMissing cfg then
    (.error .backendUnavailable, 0)
  else
    match w.backendResult with
    | .error _ => (.error .backendUnavailable, 1)
    | .ok payload =>
      let ttl := effTtl payload cfg.cache_ttl
      (.ok ⟨annotate_payload payload cfg.region w.cachedAt, w.fetchNow + (ttl : ℚ)⟩, 0)

/-- The qdrant point written by `_persist_prediction` (lines 157-165). -/
structure PredictionPoint where
  id : Nat
  vector : List ℚ
  domain : String
  expires_at : ℚ
  payload : Payload
  deriving DecidableEq, Repr

/-- Embeds `_persist_prediction` (lines 155-168): best-effort upsert of the
prediction point; a raised upsert increments `errors` and is swallowed.
Returns the written point (if the upsert succeeded) and the `errors`
increment. -/
def persist_prediction (w : World) (domain : String) (record : CacheRecord) :
    Option PredictionPoint × Nat :=
  if w.upsertOk then
    (some ⟨vector_id domain, embed_domain domain, domain, record.expires_at, record.payload⟩, 0)
  else
    (none, 1)

/-- The cache/prediction-miss tail of `resolve_domain` (lines 89-99):
prediction lookup, then backend fetch with write-through to the cache and
the prediction index. -/
def resolve_domain_miss (cfg : Config) (w : World) (st : EdgeState) (normalized : String) :
    ResolveOutcome :=
  match predict_from_semantics cfg w normalized w.now with
  | (some rec, predErr) =>
    ⟨.ok rec.payload,
     ⟨cacheSet st.cache normalized rec,
      { st.stats with predictedHits := st.stats.predictedHits + 1,
                      errors := st.stats.errors + predErr }⟩,
     [.indexSearch]⟩
  | (none, predErr) =>
    match fetch_from_backend cfg w normalized with
    | (.error e, fetchErr) =>
      ⟨.error e,
       ⟨st.cache, { st.stats with errors := st.stats.errors + predErr + fetchErr }⟩,
       [.indexSearch, .backendFetch]⟩
    | (.ok fresh, fetchErr) =>
      ⟨.ok fresh.payload,
       ⟨cacheSet st.cache normalized fresh,
        { st.stats with
            backendFetches := st.stats.backendFetches + 1,
            errors := st.stats.errors + predErr + fetchErr +
                      (persist_prediction w normalized fresh).2 }⟩,
       [.indexSearch, .backendFetch, .indexUpsert]⟩

/-- Embeds `EdgeState.resolve_domain` (lines 81-99).  A live cache entry
(`expires_at > now`) short-circuits with `cacheHits += 1` and an empty
action trace; otherwise the prediction/backend tail runs. -/
def resolve_domain (cfg : Config) (w : World) (st : EdgeState) (domain : String) :
    ResolveOutcome :=
  let normalized := normalize_domain domain
  match cacheGet st.cache normalized with
  | some cached =>
    if cached.expires_at > w.now then
      ⟨.ok cached.payload,
       ⟨st.cache, { st.stats with cacheHits := st.stats.cacheHits + 1 }⟩,
       []⟩
    else
      resolve_domain_miss cfg w st normalized
  | none => resolve_domain_miss cfg w st normalized

/-! ### DNS protocol responder (`AiDnsResolver.resolve`) -/

/-- DNS answer rdata: the three record types the responder emits. -/
inductive RData
  | a (ip : String)
  | aaaa (ip : String)
  | txt (value : String)
  deriving DecidableEq, Repr

/-- One emitted DNS resource record. -/
structure RRecord where
  rname : String
  ttl : Int
  rdata : RData
  deriving DecidableEq, Repr

/-- DNS response codes used by the responder. -/
inductive Rcode
  | NOERROR
  | SERVFAIL
  deriving DecidableEq, Repr

/-- A DNS reply: response code plus answer records (a fresh
`request.reply()` starts with no answers). -/
structure DnsReply where
  rcode : Rcode
  answers : List RRecord
  deriving DecidableEq, Repr

/-- Embeds Python `c in s` on one-character needles (membership of a
character in a string). -/
def py_in (c : Char) (s : String) : Bool :=
  s.data.contains c

/-- Embeds the candidate loop (lines 253-262): one record per candidate with
a non-empty IP, AAAA for IPv6 literals (`':' in ip`) when the query type is
AAAA or ANY, A otherwise when the query type is A or ANY. -/
def candidate_answers (qname qtype : String) (ttl : Int) (cands : List Candidate) :
    List RRecord :=
  cands.flatMap fun c =>
    match c.ip with
    | none => []
    | some ip =>
      if ip = "" then []
      else
        (if py_in ':' ip && (qtype == "AAAA" || qtype == "ANY") then
          [⟨qname, ttl, RData.aaaa ip⟩]
        else []) ++
        (if !py_in ':' ip && (qtype == "A" || qtype == "ANY") then
          [⟨qname, ttl, RData.a ip⟩]
        else [])

/-- Embeds lines 265-267: the fallback TXT value
`signature=<sig>;anchor=<anchor>` with Python `or`-chains over the payload's
top-level fields, then `meta`, then the defaults. -/
def txt_value (payload : Payload) : String :=
  "signature=" ++ pyFirstStr payload.signature (payload.meta.getD {}).signature "none" ++
    ";anchor=" ++ pyFirstStr payload.trustAnchor (payload.meta.getD {}).trustAnchor "n/a"

/-- Embeds lines 250-269: answer synthesis for a successful resolution.
The TXT record is appended when the query type is TXT or ANY, or when no
candidate record was emitted. -/
def build_reply (cfg : Config) (qname qtype : String) (payload : Payload) : DnsReply :=
  let ttl := effTtl payload cfg.cache_ttl
  let base := candidate_answers qname qtype ttl payload.candidates
  if qtype == "TXT" || qtype == "ANY" || base.isEmpty then
    ⟨.NOERROR, base ++ [⟨qname, ttl, RData.txt (txt_value payload)⟩]⟩
  else
    ⟨.NOERROR, base⟩

/-- Result of handling one DNS query: the reply and the resolver state after
the embedded `resolve_domain` call. -/
structure DnsOutcome where
  reply : DnsReply
  state : EdgeState

/-- Embeds `AiDnsResolver.resolve` (lines 241-269): strip the trailing dot
from the query name, resolve, answer SERVFAIL with no answers on any raised
error, otherwise synthesize the answer records. -/
def dns_resolve (cfg : Config) (w : World) (st : EdgeState) (qname qtype : String) :
    DnsOutcome :=
  let r := resolve_domain cfg w st (rstrip_dots qname)
  match r.result with
  | .error _ => ⟨⟨.SERVFAIL, []⟩, r.state⟩
  | .ok payload => ⟨build_reply cfg qname qtype payload, r.state⟩

/-! ### Helper predicates and lemmas -/

/-- The cache-hit test of line 85 fails for this key: no entry, or a stale
one (`expires_at ≤ now`). -/
def noLiveEntry (st : EdgeState) (n : String) (now : ℚ) : Bool :=
  match cacheGet st.cache n with
  | some rec => decide (rec.expires_at ≤ now)
  | none => true

/-- Constructor test: A rdata. -/
def RData.isA : RData → Bool
  | .a _ => true
  | _ => false

/-- Constructor test: AAAA rdata. -/
def RData.isAAAA : RData → Bool
  | .aaaa _ => true
  | _ => false

/-- Constructor test: TXT rdata. -/
def RData.isTXT : RData → Bool
  | .txt _ => true
  | _ => false

/-- Without a live cache entry, `resolve_domain` runs its miss tail. -/
theorem resolve_domain_eq_miss (cfg : Config) (w : World) (st : EdgeState) (domain : String)
    (h : noLiveEntry st (normalize_domain domain) w.now = true) :
    resolve_domain cfg w st domain = resolve_domain_miss cfg w st (normalize_domain domain) := by
  unfold noLiveEntry at h
  unfold resolve_domain
  dsimp only
  cases hc : cacheGet st.cache (normalize_domain domain) with
  | none => simp [hc]
  | some cached =>
    rw [hc] at h
    simp only [decide_eq_true_eq] at h
    simp [hc, not_lt.mpr h]

/-- With a live cache entry, `resolve_domain` is exactly the hit outcome
of lines 85-87. -/
theorem resolve_domain_hit (cfg : Config) (w : World) (st : EdgeState) (domain : String)
    (rec : CacheRecord)
    (hrec : cacheGet st.cache (normalize_domain domain) = some rec)
    (hlive : rec.expires_at > w.now) :
    resolve_domain cfg w st domain =
      ⟨.ok rec.payload,
       ⟨st.cache, { st.stats with cacheHits := st.stats.cacheHits + 1 }⟩,
       []⟩ := by
  unfold resolve_domain
  dsimp only
  rw [hrec]
  simp [hlive]

/-- Claim C1. Cache precedence: with a live cache entry for the normalized
domain (`expires_at > now`), `resolve_domain` returns exactly that entry's
payload, bumps only `cacheHits`, leaves the cache map unchanged, and
attempts no external action (empty trace: no prediction-store query, no
backend fetch). -/
theorem cache_precedence (cfg : Config) (w : World) (st : EdgeState) (domain : String)
    (rec : CacheRecord)
    (hrec : cacheGet st.cache (normalize_domain domain) = some rec)
    (hlive : rec.expires_at > w.now) :
    resolve_domain cfg w st domain =
      ⟨.ok rec.payload,
       ⟨st.cache, { st.stats with cacheHits := st.stats.cacheHits + 1 }⟩,
       []⟩ :=
  resolve_domain_hit cfg w st domain rec hrec hlive

/-! ### Concrete fixtures for witnesses and counterexamples -/

/-- A configured edge (API key present, integer-valued threshold so kernel
evaluation stays in reduced rationals). -/
def cfgW : Config :=
  { api_key := some "key", region := "eu-west", semantic_threshold := 1 }

/-- A configuration with the API key unset (all defaults). -/
def cfgNoKey : Config := {}

/-- A backend payload with one IPv4 and one IPv6 candidate. -/
def payloadW : Payload :=
  { candidates := [{ ip := some "10.0.0.1" }, { ip := some "2001:db8::1" }],
    ttl := some 30 }

/-- A live cache record for `payloadW`. -/
def recW : CacheRecord := { payload := payloadW, expires_at := 200 }

/-- A state whose cache holds `recW` under `example.com`. -/
def stW : EdgeState := { cache := [("example.com", recW)] }

/-- A benign world: time 100, empty search result, backend succeeding. -/
def wW : World :=
  { now := 100, searchResult := .ok [], backendResult := .ok payloadW,
    fetchNow := 100, cachedAt := "2026-01-01T00:00:00Z", upsertOk := true }

/-- Witness for `cache_precedence` at a concrete live cache entry. -/
theorem cache_precedence_witness :
    (cacheGet stW.cache (normalize_domain "Example.COM.") = some recW ∧
      recW.expires_at > wW.now) ∧
    resolve_domain cfgW wW stW "Example.COM." =
      ⟨.ok recW.payload,
       ⟨stW.cache, { stW.stats with cacheHits := stW.stats.cacheHits + 1 }⟩,
       []⟩ :=
  ⟨⟨by decide, by decide⟩,
   cache_precedence cfgW wW stW "Example.COM." recW (by decide) (by decide)⟩

/-! ### Miss-path helper lemmas -/

/-- The miss tail queries the index first and never touches `cacheHits` or
the `cacheHits`-carrying hit branch. -/
theorem miss_trace_head (cfg : Config) (w : World) (st : EdgeState) (n : String) :
    (resolve_domain_miss cfg w st n).trace.head? = some .indexSearch ∧
    (resolve_domain_miss cfg w st n).state.stats.cacheHits = st.stats.cacheHits := by
  unfold resolve_domain_miss
  rcases hp : predict_from_semantics cfg w n w.now with ⟨pred, predErr⟩
  cases pred with
  | some rec => simp [hp]
  | none =>
    rcases hf : fetch_from_backend cfg w n with ⟨res, fetchErr⟩
    cases res with
    | error e => simp [hp, hf]
    | ok fresh => simp [hp, hf]

/-- With no accepted prediction, the miss tail reaches the backend fetch and
leaves `predictedHits` unchanged. -/
theorem miss_fetch_of_pred_none (cfg : Config) (w : World) (st : EdgeState) (n : String)
    (h : (predict_from_semantics cfg w n w.now).1 = none) :
    .backendFetch ∈ (resolve_domain_miss cfg w st n).trace ∧
    (resolve_domain_miss cfg w st n).state.stats.predictedHits = st.stats.predictedHits := by
  unfold resolve_domain_miss
  rcases hp : predict_from_semantics cfg w n w.now with ⟨pred, predErr⟩
  rw [hp] at h
  simp only at h
  subst h
  rcases hf : fetch_from_backend cfg w n with ⟨res, fetchErr⟩
  cases res with
  | error e => simp [hp, hf]
  | ok fresh => simp [hp, hf]

/-- A raised miss tail leaves the cache untouched. -/
theorem miss_error_cache (cfg : Config) (w : World) (st : EdgeState) (n : String)
    (e : EdgeError)
    (h : (resolve_domain_miss cfg w st n).result = .error e) :
    (resolve_domain_miss cfg w st n).state.cache = st.cache := by
  unfold resolve_domain_miss at h ⊢
  rcases hp : predict_from_semantics cfg w n w.now with ⟨pred, predErr⟩
  simp only [hp] at h ⊢
  cases pred with
  | some rec => simp at h
  | none =>
    rcases hf : fetch_from_backend cfg w n with ⟨res, fetchErr⟩
    simp only [hf] at h ⊢
    cases res with
    | error e2 => simp
    | ok fresh => simp at h

/-- A raised `resolve_domain` leaves the cache untouched (errors only arise
on the fetch branch, which does not write the cache). -/
theorem resolve_error_cache (cfg : Config) (w : World) (st : EdgeState) (domain : String)
    (e : EdgeError)
    (h : (resolve_domain cfg w st domain).result = .error e) :
    (resolve_domain cfg w st domain).state.cache = st.cache := by
  by_cases hl : noLiveEntry st (normalize_domain domain) w.now = true
  · rw [resolve_domain_eq_miss cfg w st domain hl] at h ⊢
    exact miss_error_cache cfg w st (normalize_domain domain) e h
  · unfold noLiveEntry at hl
    cases hc : cacheGet st.cache (normalize_domain domain) with
    | none => rw [hc] at hl; simp at hl
    | some rec =>
      rw [hc] at hl
      simp only [decide_eq_true_eq] at hl
      rw [resolve_domain_hit cfg w st domain rec hc (not_le.mp hl)] at h
      simp at h

/-- Claim C3. Failure semantics and cache atomicity: when the embedded
`resolve_domain` call raises, the DNS responder replies SERVFAIL with zero
answer records, and the resolution cache is exactly what it was before the
query (no entry created or overwritten by the failed attempt). -/
theorem servfail_on_resolution_failure (cfg : Config) (w : World) (st : EdgeState)
    (qname qtype : String) (e : EdgeError)
    (h : (resolve_domain cfg w st (rstrip_dots qname)).result = .error e) :
    (dns_resolve cfg w st qname qtype).reply = ⟨.SERVFAIL, []⟩ ∧
    (dns_resolve cfg w st qname qtype).state.cache = st.cache := by
  unfold dns_resolve
  dsimp only
  rw [h]
  exact ⟨rfl, resolve_error_cache cfg w st (rstrip_dots qname) e h⟩

/-- Witness for `servfail_on_resolution_failure`: unset API key, empty
cache, no prediction — the resolve raises and the reply is SERVFAIL/empty. -/
theorem servfail_on_resolution_failure_witness :
    (resolve_domain cfgNoKey wW {} (rstrip_dots "fail.example.")).result =
      .error .backendUnavailable ∧
    ((dns_resolve cfgNoKey wW {} "fail.example." "A").reply = ⟨.SERVFAIL, []⟩ ∧
     (dns_resolve cfgNoKey wW ({} : EdgeState) "fail.example." "A").state.cache =
       ({} : EdgeState).cache) :=
  ⟨rfl,
   servfail_on_resolution_failure cfgNoKey wW {} "fail.example." "A" .backendUnavailable rfl⟩

/-- An in-range, live, above-or-at-threshold hit is accepted by
`_predict_from_semantics` with no error increment. -/
theorem predict_accepts (cfg : Config) (w : World) (n : String) (hit : Hit)
    (rest : List Hit) (hp : HitPayload) (p : Payload)
    (hsearch : w.searchResult = .ok (hit :: rest))
    (hhp : hit.payload = some hp)
    (hpp : hp.payload = some p)
    (hexp : hp.expires_at.getD 0 > w.now)
    (hscore : ¬ hit.score < cfg.semantic_threshold) :
    predict_from_semantics cfg w n w.now =
      (some ⟨{ p with predicted := true }, hp.expires_at.getD 0⟩, 0) := by
  unfold predict_from_semantics
  rw [hsearch]
  dsimp only
  simp [hhp, hpp, not_le.mpr hexp, hscore]

/-- Claim C2. Prediction acceptance threshold boundary.  First part: a
non-expired hit with a non-null stored payload whose score equals the
configured threshold is accepted — the payload is returned marked
`predicted := true`, written to the cache, and `predictedHits` is bumped.
Second part: a score strictly below the threshold is rejected and the
resolve falls through to the backend fetch. -/
theorem prediction_threshold_boundary :
    (∀ (cfg : Config) (w : World) (st : EdgeState) (domain : String) (hit : Hit)
        (rest : List Hit) (hp : HitPayload) (p : Payload),
      noLiveEntry st (normalize_domain domain) w.now = true →
      w.searchResult = .ok (hit :: rest) →
      hit.payload = some hp →
      hp.payload = some p →
      hp.expires_at.getD 0 > w.now →
      hit.score = cfg.semantic_threshold →
      resolve_domain cfg w st domain =
        ⟨.ok { p with predicted := true },
         ⟨cacheSet st.cache (normalize_domain domain)
            ⟨{ p with predicted := true }, hp.expires_at.getD 0⟩,
          { st.stats with predictedHits := st.stats.predictedHits + 1 }⟩,
         [.indexSearch]⟩) ∧
    (∀ (cfg : Config) (w : World) (st : EdgeState) (domain : String) (hit : Hit)
        (rest : List Hit),
      noLiveEntry st (normalize_domain domain) w.now = true →
      w.searchResult = .ok (hit :: rest) →
      hit.score < cfg.semantic_threshold →
      (predict_from_semantics cfg w (normalize_domain domain) w.now).1 = none ∧
      .backendFetch ∈ (resolve_domain cfg w st domain).trace ∧
      (resolve_domain cfg w st domain).state.stats.predictedHits =
        st.stats.predictedHits) := by
  constructor
  · intro cfg w st domain hit rest hp p hnl hsearch hhp hpp hexp hscore
    rw [resolve_domain_eq_miss cfg w st domain hnl]
    unfold resolve_domain_miss
    rw [predict_accepts cfg w (normalize_domain domain) hit rest hp p hsearch hhp hpp hexp
        (by rw [hscore]; exact lt_irrefl _)]
    simp
  · intro cfg w st domain hit rest hnl hsearch hscore
    have hpred : (predict_from_semantics cfg w (normalize_domain domain) w.now).1 = none := by
      unfold predict_from_semantics
      rw [hsearch]
      dsimp only
      cases hb : hit.payload.bind (fun s => s.payload) with
      | none => rfl
      | some p => simp [hscore]
    refine ⟨hpred, ?_, ?_⟩
    · rw [resolve_domain_eq_miss cfg w st domain hnl]
      exact (miss_fetch_of_pred_none cfg w st (normalize_domain domain) hpred).1
    · rw [resolve_domain_eq_miss cfg w st domain hnl]
      exact (miss_fetch_of_pred_none cfg w st (normalize_domain domain) hpred).2

/-- A prediction hit whose score equals `cfgW`'s threshold. -/
def hitAt : Hit :=
  { score := 1,
    payload := some { domain := "example.com", payload := some payloadW, expires_at := some 500 } }

/-- World in which the search returns `hitAt`. -/
def wPredAt : World := { wW with searchResult := .ok [hitAt] }

/-- The same hit with a score strictly below the threshold. -/
def hitLow : Hit := { hitAt with score := 0 }

/-- World in which the search returns `hitLow`. -/
def wPredLow : World := { wW with searchResult := .ok [hitLow] }

/-- Witness for `prediction_threshold_boundary`: a score exactly at the
threshold is accepted; a lower score falls through to the backend. -/
theorem prediction_threshold_boundary_witness :
    (noLiveEntry ({} : EdgeState) (normalize_domain "example.com") wPredAt.now = true ∧
      hitAt.score = cfgW.semantic_threshold ∧
      hitLow.score < cfgW.semantic_threshold) ∧
    resolve_domain cfgW wPredAt {} "example.com" =
      ⟨.ok { payloadW with predicted := true },
       ⟨cacheSet ({} : EdgeState).cache (normalize_domain "example.com")
          ⟨{ payloadW with predicted := true },
           (hitAt.payload.getD {}).expires_at.getD 0⟩,
        { ({} : EdgeState).stats with
            predictedHits := ({} : EdgeState).stats.predictedHits + 1 }⟩,
       [.indexSearch]⟩ ∧
    ((predict_from_semantics cfgW wPredLow (normalize_domain "example.com")
        wPredLow.now).1 = none ∧
      .backendFetch ∈ (resolve_domain cfgW wPredLow {} "example.com").trace ∧
      (resolve_domain cfgW wPredLow {} "example.com").state.stats.predictedHits =
        ({} : EdgeState).stats.predictedHits) :=
  ⟨⟨by decide, by decide, by decide⟩,
   prediction_threshold_boundary.1 cfgW wPredAt {} "example.com" hitAt []
     (hitAt.payload.getD {}) payloadW (by decide) rfl rfl rfl (by decide) (by decide),
   prediction_threshold_boundary.2 cfgW wPredLow {} "example.com" hitLow []
     (by decide) rfl (by decide)⟩

/-- Claim C6. Expiry enforcement.  First part: a cache entry with
`expires_at ≤ now` is never returned by the cache-hit path — the resolver
proceeds to the prediction lookup (trace starts with the index search) and
`cacheHits` is unchanged.  Second part: a prediction hit whose stored
`expires_at ≤ now` is never accepted — the resolver proceeds to the backend
fetch and `predictedHits` is unchanged. -/
theorem expiry_enforcement :
    (∀ (cfg : Config) (w : World) (st : EdgeState) (domain : String) (rec : CacheRecord),
      cacheGet st.cache (normalize_domain domain) = some rec →
      rec.expires_at ≤ w.now →
      (resolve_domain cfg w st domain).trace.head? = some .indexSearch ∧
      (resolve_domain cfg w st domain).state.stats.cacheHits = st.stats.cacheHits) ∧
    (∀ (cfg : Config) (w : World) (st : EdgeState) (domain : String) (hit : Hit)
        (rest : List Hit),
      noLiveEntry st (normalize_domain domain) w.now = true →
      w.searchResult = .ok (hit :: rest) →
      (hit.payload.bind (fun s => s.expires_at)).getD 0 ≤ w.now →
      .backendFetch ∈ (resolve_domain cfg w st domain).trace ∧
      (resolve_domain cfg w st domain).state.stats.predictedHits =
        st.stats.predictedHits) := by
  constructor
  · intro cfg w st domain rec hrec hstale
    have hnl : noLiveEntry st (normalize_domain domain) w.now = true := by
      unfold noLiveEntry
      rw [hrec]
      simp [hstale]
    rw [resolve_domain_eq_miss cfg w st domain hnl]
    exact miss_trace_head cfg w st (normalize_domain domain)
  · intro cfg w st domain hit rest hnl hsearch hstale
    have hpred : (predict_from_semantics cfg w (normalize_domain domain) w.now).1 = none := by
      unfold predict_from_semantics
      rw [hsearch]
      dsimp only
      cases hb : hit.payload.bind (fun s => s.payload) with
      | none => rfl
      | some p => simp [hstale]
    rw [resolve_domain_eq_miss cfg w st domain hnl]
    exact miss_fetch_of_pred_none cfg w st (normalize_domain domain) hpred

/-- A stale cache record (expired at 50 against clock 100). -/
def recStale : CacheRecord := { payload := payloadW, expires_at := 50 }

/-- A state whose only cache entry is stale. -/
def stStale : EdgeState := { cache := [("example.com", recStale)] }

/-- A prediction hit whose stored expiry 50 is in the past at clock 100. -/
def hitStale : Hit :=
  { score := 1,
    payload := some { domain := "example.com", payload := some payloadW, expires_at := some 50 } }

/-- World in which the search returns `hitStale`. -/
def wStale : World := { wW with searchResult := .ok [hitStale] }

/-- Witness for `expiry_enforcement` at a stale cache entry and a stale
prediction hit. -/
theorem expiry_enforcement_witness :
    (cacheGet stStale.cache (normalize_domain "example.com") = some recStale ∧
      recStale.expires_at ≤ wStale.now ∧
      (hitStale.payload.bind (fun s => s.expires_at)).getD 0 ≤ wStale.now) ∧
    ((resolve_domain cfgW wStale stStale "example.com").trace.head? = some .indexSearch ∧
      (resolve_domain cfgW wStale stStale "example.com").state.stats.cacheHits =
        stStale.stats.cacheHits) ∧
    (.backendFetch ∈ (resolve_domain cfgW wStale ({} : EdgeState) "example.com").trace ∧
      (resolve_domain cfgW wStale ({} : EdgeState) "example.com").state.stats.predictedHits =
        ({} : EdgeState).stats.predictedHits) :=
  ⟨⟨by decide, by decide, by decide⟩,
   expiry_enforcement.1 cfgW wStale stStale "example.com" recStale (by decide) (by decide),
   expiry_enforcement.2 cfgW wStale {} "example.com" hitStale [] (by decide) rfl (by decide)⟩

/-! ### Fetch-outcome helper lemmas -/

/-- Unset/empty API key: the fetch raises without touching `errors`. -/
theorem fetch_key_missing (cfg : Config) (w : World) (n : String)
    (hkey : apiKeyMissing cfg = true) :
    fetch_from_backend cfg w n = (.error .backendUnavailable, 0) := by
  simp [fetch_from_backend, hkey]

/-- Raised/non-success HTTP call: the fetch raises and bumps `errors`. -/
theorem fetch_http_error (cfg : Config) (w : World) (n : String)
    (hkey : apiKeyMissing cfg = false)
    (hresp : w.backendResult = .error ()) :
    fetch_from_backend cfg w n = (.error .backendUnavailable, 1) := by
  simp [fetch_from_backend, hkey, hresp]

/-- Successful HTTP call: the fetch returns the annotated payload with
expiry `fetchNow + effTtl`. -/
theorem fetch_ok (cfg : Config) (w : World) (n : String) (p : Payload)
    (hkey : apiKeyMissing cfg = false)
    (hresp : w.backendResult = .ok p) :
    fetch_from_backend cfg w n =
      (.ok ⟨annotate_payload p cfg.region w.cachedAt,
            w.fetchNow + (effTtl p cfg.cache_ttl : ℚ)⟩, 0) := by
  simp [fetch_from_backend, hkey, hresp]

/-- A raised index search yields no prediction and one `errors` bump. -/
theorem predict_search_error (cfg : Config) (w : World) (n : String)
    (h : w.searchResult = .error ()) :
    predict_from_semantics cfg w n w.now = (none, 1) := by
  unfold predict_from_semantics
  rw [h]

/-- Miss tail with no accepted prediction and a failing fetch: the raised
error is returned, the cache untouched, and `errors` accumulates the
prediction-path and fetch-path increments. -/
theorem miss_fetch_error (cfg : Config) (w : World) (st : EdgeState) (n : String)
    (e : EdgeError) (fe : Nat)
    (hpred : (predict_from_semantics cfg w n w.now).1 = none)
    (hf : fetch_from_backend cfg w n = (.error e, fe)) :
    resolve_domain_miss cfg w st n =
      ⟨.error e,
       ⟨st.cache,
        { st.stats with
            errors := st.stats.errors + (predict_from_semantics cfg w n w.now).2 + fe }⟩,
       [.indexSearch, .backendFetch]⟩ := by
  unfold resolve_domain_miss
  rcases hp : predict_from_semantics cfg w n w.now with ⟨pred, pe⟩
  rw [hp] at hpred
  simp only at hpred
  subst hpred
  simp [hp, hf]

/-- Miss tail with no accepted prediction and a successful fetch: the fresh
record is returned and written through, `backendFetches` bumps, and
`errors` accumulates the prediction-, fetch- and persist-path increments. -/
theorem miss_fetch_ok (cfg : Config) (w : World) (st : EdgeState) (n : String)
    (fresh : CacheRecord) (fe : Nat)
    (hpred : (predict_from_semantics cfg w n w.now).1 = none)
    (hf : fetch_from_backend cfg w n = (.ok fresh, fe)) :
    resolve_domain_miss cfg w st n =
      ⟨.ok fresh.payload,
       ⟨cacheSet st.cache n fresh,
        { st.stats with
            backendFetches := st.stats.backendFetches + 1,
            errors := st.stats.errors + (predict_from_semantics cfg w n w.now).2 + fe +
                      (persist_prediction w n fresh).2 }⟩,
       [.indexSearch, .backendFetch, .indexUpsert]⟩ := by
  unfold resolve_domain_miss
  rcases hp : predict_from_semantics cfg w n w.now with ⟨pred, pe⟩
  rw [hp] at hpred
  simp only at hpred
  subst hpred
  simp [hp, hf]

/-- Counterexample to C4 as stated: with the API key unset (no live cache
entry, no prediction), the backend-fetch path is reached and the resolve
raises `BackendUnavailable`, yet the `errors` counter stays 0 — the
missing-key branch of `_fetch_from_backend` raises before the
`errors`-incrementing `except` handler. -/
theorem backend_failure_accounting_counterexample :
    (resolve_domain cfgNoKey wW {} "x.com").result = .error .backendUnavailable ∧
    (resolve_domain cfgNoKey wW {} "x.com").trace = [.indexSearch, .backendFetch] ∧
    (resolve_domain cfgNoKey wW ({} : EdgeState) "x.com").state.stats.errors = 0 :=
  ⟨rfl, rfl, rfl⟩

/-- Claim C4, amended. Backend failure accounting: whenever the fetch path is
reached (no live cache entry, no accepted prediction) and fails, the resolve
raises `BackendUnavailable`; `errors` is incremented by 1 only when the HTTP
call raises or returns non-success — when the API key is unset the raise
happens without incrementing `errors`. -/
theorem backend_failure_accounting (cfg : Config) (w : World) (st : EdgeState)
    (domain : String)
    (hnl : noLiveEntry st (normalize_domain domain) w.now = true)
    (hpred : (predict_from_semantics cfg w (normalize_domain domain) w.now).1 = none) :
    (apiKeyMissing cfg = true →
      (resolve_domain cfg w st domain).result = .error .backendUnavailable ∧
      (resolve_domain cfg w st domain).state.stats.errors =
        st.stats.errors +
          (predict_from_semantics cfg w (normalize_domain domain) w.now).2) ∧
    (apiKeyMissing cfg = false → w.backendResult = .error () →
      (resolve_domain cfg w st domain).result = .error .backendUnavailable ∧
      (resolve_domain cfg w st domain).state.stats.errors =
        st.stats.errors +
          (predict_from_semantics cfg w (normalize_domain domain) w.now).2 + 1) := by
  rw [resolve_domain_eq_miss cfg w st domain hnl]
  constructor
  · intro hkey
    rw [miss_fetch_error cfg w st (normalize_domain domain) .backendUnavailable 0 hpred
        (fetch_key_missing cfg w (normalize_domain domain) hkey)]
    exact ⟨rfl, rfl⟩
  · intro hkey hresp
    rw [miss_fetch_error cfg w st (normalize_domain domain) .backendUnavailable 1 hpred
        (fetch_http_error cfg w (normalize_domain domain) hkey hresp)]
    exact ⟨rfl, rfl⟩

/-- A world whose backend HTTP call fails. -/
def wBackendFail : World := { wW with backendResult := .error () }

/-- Witness for `backend_failure_accounting`: key unset at `cfgNoKey` (no
increment), HTTP failure at `cfgW` (one increment). -/
theorem backend_failure_accounting_witness :
    (noLiveEntry ({} : EdgeState) (normalize_domain "x.com") wW.now = true ∧
      apiKeyMissing cfgNoKey = true ∧ apiKeyMissing cfgW = false) ∧
    ((resolve_domain cfgNoKey wW {} "x.com").result = .error .backendUnavailable ∧
      (resolve_domain cfgNoKey wW ({} : EdgeState) "x.com").state.stats.errors =
        ({} : EdgeState).stats.errors +
          (predict_from_semantics cfgNoKey wW (normalize_domain "x.com") wW.now).2) ∧
    ((resolve_domain cfgW wBackendFail {} "x.com").result = .error .backendUnavailable ∧
      (resolve_domain cfgW wBackendFail ({} : EdgeState) "x.com").state.stats.errors =
        ({} : EdgeState).stats.errors +
          (predict_from_semantics cfgW wBackendFail (normalize_domain "x.com")
            wBackendFail.now).2 + 1) :=
  ⟨⟨by decide, by decide, by decide⟩,
   (backend_failure_accounting cfgNoKey wW {} "x.com" (by decide) rfl).1 rfl,
   (backend_failure_accounting cfgW wBackendFail {} "x.com" (by decide) rfl).2 rfl rfl⟩

/-- Claim C9. Prediction-index failures never propagate.  First part: a raised
similarity search is absorbed — `errors` bumps by 1 and resolution falls
through to the backend fetch, succeeding when the fetch succeeds.  Second
part: a raised post-fetch index write bumps `errors` but the resolve call
still succeeds and returns the fetched payload. -/
theorem index_failures_never_propagate :
    (∀ (cfg : Config) (w : World) (st : EdgeState) (domain : String) (p : Payload),
      noLiveEntry st (normalize_domain domain) w.now = true →
      w.searchResult = .error () →
      apiKeyMissing cfg = false →
      w.backendResult = .ok p →
      w.upsertOk = true →
      (resolve_domain cfg w st domain).result =
        .ok (annotate_payload p cfg.region w.cachedAt) ∧
      (resolve_domain cfg w st domain).trace =
        [.indexSearch, .backendFetch, .indexUpsert] ∧
      (resolve_domain cfg w st domain).state.stats.errors = st.stats.errors + 1 ∧
      (resolve_domain cfg w st domain).state.stats.backendFetches =
        st.stats.backendFetches + 1) ∧
    (∀ (cfg : Config) (w : World) (st : EdgeState) (domain : String) (p : Payload),
      noLiveEntry st (normalize_domain domain) w.now = true →
      (predict_from_semantics cfg w (normalize_domain domain) w.now).1 = none →
      apiKeyMissing cfg = false →
      w.backendResult = .ok p →
      w.upsertOk = false →
      (resolve_domain cfg w st domain).result =
        .ok (annotate_payload p cfg.region w.cachedAt) ∧
      (resolve_domain cfg w st domain).state.stats.errors =
        st.stats.errors +
          (predict_from_semantics cfg w (normalize_domain domain) w.now).2 + 1 ∧
      (resolve_domain cfg w st domain).state.stats.backendFetches =
        st.stats.backendFetches + 1) := by
  constructor
  · intro cfg w st domain p hnl hsearch hkey hresp hup
    have hpred : (predict_from_semantics cfg w (normalize_domain domain) w.now).1 = none := by
      rw [predict_search_error cfg w (normalize_domain domain) hsearch]
    rw [resolve_domain_eq_miss cfg w st domain hnl,
        miss_fetch_ok cfg w st (normalize_domain domain) _ 0 hpred
          (fetch_ok cfg w (normalize_domain domain) p hkey hresp)]
    refine ⟨rfl, rfl, ?_, rfl⟩
    simp [predict_search_error cfg w (normalize_domain domain) hsearch,
      persist_prediction, hup]
  · intro cfg w st domain p hnl hpred hkey hresp hup
    rw [resolve_domain_eq_miss cfg w st domain hnl,
        miss_fetch_ok cfg w st (normalize_domain domain) _ 0 hpred
          (fetch_ok cfg w (normalize_domain domain) p hkey hresp)]
    refine ⟨rfl, ?_, rfl⟩
    simp [persist_prediction, hup]

/-- A world whose similarity search raises. -/
def wSearchFail : World := { wW with searchResult := .error () }

/-- A world whose post-fetch index upsert raises. -/
def wUpsertFail : World := { wW with upsertOk := false }

/-- Witness for `index_failures_never_propagate`: a raised search and a
raised upsert, both around a successful backend fetch. -/
theorem index_failures_never_propagate_witness :
    (noLiveEntry ({} : EdgeState) (normalize_domain "x.com") wSearchFail.now = true ∧
      wSearchFail.searchResult = .error () ∧ wUpsertFail.upsertOk = false) ∧
    ((resolve_domain cfgW wSearchFail {} "x.com").result =
        .ok (annotate_payload payloadW cfgW.region wSearchFail.cachedAt) ∧
      (resolve_domain cfgW wSearchFail {} "x.com").trace =
        [.indexSearch, .backendFetch, .indexUpsert] ∧
      (resolve_domain cfgW wSearchFail ({} : EdgeState) "x.com").state.stats.errors =
        ({} : EdgeState).stats.errors + 1 ∧
      (resolve_domain cfgW wSearchFail ({} : EdgeState) "x.com").state.stats.backendFetches =
        ({} : EdgeState).stats.backendFetches + 1) ∧
    ((resolve_domain cfgW wUpsertFail {} "x.com").result =
        .ok (annotate_payload payloadW cfgW.region wUpsertFail.cachedAt) ∧
      (resolve_domain cfgW wUpsertFail ({} : EdgeState) "x.com").state.stats.errors =
        ({} : EdgeState).stats.errors +
          (predict_from_semantics cfgW wUpsertFail (normalize_domain "x.com")
            wUpsertFail.now).2 + 1 ∧
      (resolve_domain cfgW wUpsertFail ({} : EdgeState) "x.com").state.stats.backendFetches =
        ({} : EdgeState).stats.backendFetches + 1) :=
  ⟨⟨by decide, rfl, rfl⟩,
   index_failures_never_propagate.1 cfgW wSearchFail {} "x.com" payloadW
     (by decide) rfl rfl rfl rfl,
   index_failures_never_propagate.2 cfgW wUpsertFail {} "x.com" payloadW
     (by decide) rfl rfl rfl rfl⟩

/-- Claim C10. TTL-zero fallback: on a successful backend fetch the record's
expiry is `fetchNow + ttl` only when the response `ttl` is present and
non-zero; a `ttl` of 0, null, or absent falls back to the configured default
cache TTL (a backend-declared TTL of exactly 0 is never honored). -/
theorem ttl_zero_fallback (cfg : Config) (w : World) (domain : String) (p : Payload)
    (hkey : apiKeyMissing cfg = false)
    (hresp : w.backendResult = .ok p) :
    ∃ rec, (fetch_from_backend cfg w domain).1 = .ok rec ∧
      rec.payload = annotate_payload p cfg.region w.cachedAt ∧
      (∀ t : Int, p.ttl = some t → t ≠ 0 → rec.expires_at = w.fetchNow + (t : ℚ)) ∧
      ((p.ttl = none ∨ p.ttl = some 0) →
        rec.expires_at = w.fetchNow + (cfg.cache_ttl : ℚ)) := by
  refine ⟨⟨annotate_payload p cfg.region w.cachedAt,
           w.fetchNow + (effTtl p cfg.cache_ttl : ℚ)⟩, ?_, rfl, ?_, ?_⟩
  · rw [fetch_ok cfg w domain p hkey hresp]
  · intro t ht hnz
    simp [effTtl, ht, hnz]
  · intro h
    rcases h with h | h <;> simp [effTtl, h]

/-- A backend payload declaring `ttl = 0`. -/
def pTtl0 : Payload := { payloadW with ttl := some 0 }

/-- A world whose backend returns `pTtl0`. -/
def wTtl0 : World := { wW with backendResult := .ok pTtl0 }

/-- Witness for `ttl_zero_fallback` at a backend response declaring
`ttl = 0`. -/
theorem ttl_zero_fallback_witness :
    (apiKeyMissing cfgW = false ∧ wTtl0.backendResult = .ok pTtl0) ∧
    (∃ rec, (fetch_from_backend cfgW wTtl0 "x.com").1 = .ok rec ∧
      rec.payload = annotate_payload pTtl0 cfgW.region wTtl0.cachedAt ∧
      (∀ t : Int, pTtl0.ttl = some t → t ≠ 0 →
        rec.expires_at = wTtl0.fetchNow + (t : ℚ)) ∧
      ((pTtl0.ttl = none ∨ pTtl0.ttl = some 0) →
        rec.expires_at = wTtl0.fetchNow + (cfgW.cache_ttl : ℚ))) :=
  ⟨⟨by decide, rfl⟩, ttl_zero_fallback cfgW wTtl0 "x.com" pTtl0 (by decide) rfl⟩

/-- On a successful resolve, the DNS reply is `build_reply`. -/
theorem dns_resolve_ok (cfg : Config) (w : World) (st : EdgeState) (qname qtype : String)
    (payload : Payload)
    (hres : (resolve_domain cfg w st (rstrip_dots qname)).result = .ok payload) :
    (dns_resolve cfg w st qname qtype).reply = build_reply cfg qname qtype payload := by
  unfold dns_resolve
  dsimp only
  rw [hres]

/-- Claim C7. DNS record synthesis for ANY queries: a successful payload whose
candidates are one IPv4 candidate and one IPv6 candidate (in either order)
yields, for query type ANY, exactly one A record with the IPv4 address,
exactly one AAAA record with the IPv6 address, and exactly one TXT record —
all three, even though address records were emitted. -/
theorem any_query_synthesis (cfg : Config) (w : World) (st : EdgeState) (qname : String)
    (payload : Payload) (c1 c2 : Candidate) (ip4 ip6 : String)
    (hres : (resolve_domain cfg w st (rstrip_dots qname)).result = .ok payload)
    (hcands : payload.candidates = [c1, c2] ∨ payload.candidates = [c2, c1])
    (h4 : c1.ip = some ip4) (h4ne : ip4 ≠ "") (h4c : py_in ':' ip4 = false)
    (h6 : c2.ip = some ip6) (h6c : py_in ':' ip6 = true) :
    ((dns_resolve cfg w st qname "ANY").reply.answers.filter
        (fun r => r.rdata.isA)) =
      [⟨qname, effTtl payload cfg.cache_ttl, RData.a ip4⟩] ∧
    ((dns_resolve cfg w st qname "ANY").reply.answers.filter
        (fun r => r.rdata.isAAAA)) =
      [⟨qname, effTtl payload cfg.cache_ttl, RData.aaaa ip6⟩] ∧
    ((dns_resolve cfg w st qname "ANY").reply.answers.filter
        (fun r => r.rdata.isTXT)).length = 1 := by
  have h6ne : ip6 ≠ "" := by
    intro he
    rw [he] at h6c
    simp [py_in] at h6c
  rw [dns_resolve_ok cfg w st qname "ANY" payload hres]
  unfold build_reply
  dsimp only
  rcases hcands with hc | hc <;>
    simp [candidate_answers, hc, h4, h6, h4ne, h6ne, h4c, h6c,
      RData.isA, RData.isAAAA, RData.isTXT]

/-- Candidates with missing or empty IPs emit no address records. -/
theorem candidate_answers_empty (qname qtype : String) (ttl : Int) :
    ∀ (cands : List Candidate),
      (∀ c ∈ cands, c.ip = none ∨ c.ip = some "") →
      candidate_answers qname qtype ttl cands = []
  | [], _ => rfl
  | c :: cs, h => by
    have h1 := h c (List.mem_cons_self c cs)
    have ih := candidate_answers_empty qname qtype ttl cs
      (fun d hd => h d (List.mem_cons_of_mem c hd))
    unfold candidate_answers at ih ⊢
    rw [List.flatMap_cons, ih, List.append_nil]
    rcases h1 with h1 | h1 <;> simp [h1]

/-- Claim C8. Fallback TXT on empty candidates: a successful payload with no
usable candidate IP and query type A yields exactly one answer — a TXT
record `signature=<sig>;anchor=<anchor>` with `<sig>` from the payload's
top-level `signature`, falling back to `meta.signature` and then `"none"`,
and `<anchor>` from `trustAnchor`, falling back to `meta.trustAnchor` and
then `"n/a"` — never an empty-but-successful reply. -/
theorem fallback_txt_on_empty_candidates (cfg : Config) (w : World) (st : EdgeState)
    (qname : String) (payload : Payload)
    (hres : (resolve_domain cfg w st (rstrip_dots qname)).result = .ok payload)
    (hcands : ∀ c ∈ payload.candidates, c.ip = none ∨ c.ip = some "") :
    (dns_resolve cfg w st qname "A").reply =
      ⟨.NOERROR,
       [⟨qname, effTtl payload cfg.cache_ttl,
         RData.txt ("signature=" ++
           pyFirstStr payload.signature (payload.meta.getD {}).signature "none" ++
           ";anchor=" ++
           pyFirstStr payload.trustAnchor (payload.meta.getD {}).trustAnchor "n/a")⟩]⟩ := by
  rw [dns_resolve_ok cfg w st qname "A" payload hres]
  unfold build_reply
  dsimp only
  rw [candidate_answers_empty qname "A" (effTtl payload cfg.cache_ttl)
      payload.candidates hcands]
  simp [txt_value]

/-- Witness for `any_query_synthesis`: the live cached `payloadW` (one IPv4,
one IPv6 candidate) served for an ANY query. -/
theorem any_query_synthesis_witness :
    ((resolve_domain cfgW wW stW (rstrip_dots "example.com.")).result = .ok payloadW ∧
      py_in ':' "10.0.0.1" = false ∧ py_in ':' "2001:db8::1" = true) ∧
    (((dns_resolve cfgW wW stW "example.com." "ANY").reply.answers.filter
        (fun r => r.rdata.isA)) =
      [⟨"example.com.", effTtl payloadW cfgW.cache_ttl, RData.a "10.0.0.1"⟩] ∧
    ((dns_resolve cfgW wW stW "example.com." "ANY").reply.answers.filter
        (fun r => r.rdata.isAAAA)) =
      [⟨"example.com.", effTtl payloadW cfgW.cache_ttl, RData.aaaa "2001:db8::1"⟩] ∧
    ((dns_resolve cfgW wW stW "example.com." "ANY").reply.answers.filter
        (fun r => r.rdata.isTXT)).length = 1) :=
  ⟨⟨rfl, by decide, by decide⟩,
   any_query_synthesis cfgW wW stW "example.com." payloadW
     { ip := some "10.0.0.1" } { ip := some "2001:db8::1" } "10.0.0.1" "2001:db8::1"
     rfl (Or.inl rfl) rfl (by decide) (by decide) rfl (by decide)⟩

/-- A payload with no candidates but signature/trust-anchor material. -/
def pNoCands : Payload :=
  { ttl := some 30, signature := some "sig1",
    meta := some { trustAnchor := some "anchor1" } }

/-- A state caching `pNoCands` live under `txtonly.example`. -/
def stNoCands : EdgeState :=
  { cache := [("txtonly.example", { payload := pNoCands, expires_at := 200 })] }

/-- Witness for `fallback_txt_on_empty_candidates`: an A query against the
candidate-less `pNoCands` yields exactly the fallback TXT record. -/
theorem fallback_txt_on_empty_candidates_witness :
    ((resolve_domain cfgW wW stNoCands (rstrip_dots "txtonly.example.")).result =
        .ok pNoCands ∧
      (∀ c ∈ pNoCands.candidates, c.ip = none ∨ c.ip = some "")) ∧
    (dns_resolve cfgW wW stNoCands "txtonly.example." "A").reply =
      ⟨.NOERROR,
       [⟨"txtonly.example.", effTtl pNoCands cfgW.cache_ttl,
         RData.txt ("signature=" ++
           pyFirstStr pNoCands.signature (pNoCands.meta.getD {}).signature "none" ++
           ";anchor=" ++
           pyFirstStr pNoCands.trustAnchor (pNoCands.meta.getD {}).trustAnchor "n/a")⟩]⟩ :=
  ⟨⟨rfl, by simp [pNoCands]⟩,
   fallback_txt_on_empty_candidates cfgW wW stNoCands "txtonly.example." pNoCands
     rfl (by simp [pNoCands])⟩

/-- Every serialized byte is `< 256`. -/
theorem beBytes_lt_256 (n x : Nat) : ∀ b ∈ beBytes n x, b < 256 := by
  intro b hb
  simp only [beBytes, List.mem_map] at hb
  obtain ⟨i, _, rfl⟩ := hb
  exact Nat.mod_lt _ (by norm_num)

/-- Every SHA-256 digest byte is `< 256`. -/
theorem sha256_bytes_lt_256 (msg : List Nat) : ∀ b ∈ sha256 msg, b < 256 := by
  intro b hb
  unfold sha256 at hb
  simp only [List.mem_flatMap] at hb
  obtain ⟨v, _, hbv⟩ := hb
  exact beBytes_lt_256 4 v b hbv

/-- Claim C5, amended. The embedding is a pure function of `(domain, dims)`
(hence deterministic), always returns a vector of length `dims`, and every
component lies in `[0, 2)` — not `[0, 1)`: the component formula
`(digest_byte + idx*17 % 255) / 255` can reach up to `509/255`. -/
theorem embed_domain_shape (domain : String) (dims : Nat) :
    (embed_domain domain dims).length = dims ∧
    ∀ x ∈ embed_domain domain dims, 0 ≤ x ∧ x < 2 := by
  constructor
  · simp [embed_domain]
  · intro x hx
    unfold embed_domain at hx
    simp only [List.mem_map, List.mem_range] at hx
    obtain ⟨idx, hidx, rfl⟩ := hx
    have hbase :
        (sha256 (strBytes domain)).getD
          (idx % (sha256 (strBytes domain)).length) 0 < 256 := by
      rcases Nat.lt_or_ge (idx % (sha256 (strBytes domain)).length)
          (sha256 (strBytes domain)).length with hlt | hge
      · refine sha256_bytes_lt_256 (strBytes domain) _ ?_
        rw [List.getD_eq_getElem _ _ hlt]
        exact List.getElem_mem _
      · rw [List.getD_eq_default _ _ hge]
        norm_num
    constructor
    · positivity
    · rw [div_lt_iff₀ (by norm_num : (0 : ℚ) < 255)]
      have hb : ((sha256 (strBytes domain)).getD
          (idx % (sha256 (strBytes domain)).length) 0 : ℚ) ≤ 255 := by
        exact_mod_cast Nat.le_of_lt_succ hbase
      have hm : ((idx * 17 % 255 : Nat) : ℚ) ≤ 254 := by
        exact_mod_cast Nat.le_of_lt_succ (Nat.mod_lt _ (by norm_num))
      linarith

set_option maxRecDepth 100000 in
/-- Counterexample to C5's range claim: component 3 of
`embed_domain "example.com" 32` is `(246 + 51)/255 = 297/255 ≥ 1`, outside
`[0, 1)`. -/
theorem embed_domain_range_counterexample :
    ∃ x ∈ embed_domain "example.com" 32, ¬ (0 ≤ x ∧ x < 1) := by
  have hdig : sha256 (strBytes "example.com") =
      [163, 121, 166, 246, 238, 175, 185, 165, 94, 55, 140, 17, 128, 52, 226, 117,
       30, 104, 47, 171, 159, 45, 48, 171, 19, 210, 18, 85, 134, 206, 25, 71] := by
    decide
  refine ⟨((246 : ℚ) + 51) / 255, ?_, ?_⟩
  · unfold embed_domain
    simp only [List.mem_map, List.mem_range]
    refine ⟨3, by norm_num, ?_⟩
    rw [hdig]
    norm_num [List.getD]
  · intro hx
    have h1 : ¬ ((246 : ℚ) + 51) / 255 < 1 := by norm_num
    exact h1 hx.2
